import Mathlib

/-!
Verification of the PenumbraOS installer frontend (src-ui) and of the
installation-orchestration engine contract it calls into.

The TypeScript sources under src-ui/src are embedded shallowly: pure
functions become Lean functions on the same data, React hook callbacks
become explicit state-transition functions, and TS optional / nullable
fields become Option types.  JavaScript string operations (trim, slice,
truthiness, the || default operator) are embedded explicitly.  The Rust
Tauri backend (the engine proper) is not among the sources; the parts of
it that claims depend on are modelled from the specification and are
marked as such in their doc comments.
-/

set_option autoImplicit false

namespace Installer

/-! ## JavaScript string primitives -/

/-- Whitespace as removed by JavaScript String.prototype.trim. -/
def jsWhitespace (c : Char) : Bool := c.isWhitespace

/-- Embedding of JavaScript s.trim(): removes leading and trailing
whitespace. -/
def jsTrim (s : String) : String :=
  ⟨((s.data.dropWhile jsWhitespace).reverse.dropWhile jsWhitespace).reverse⟩

/-- A string is trimmed when neither its first nor its last character is
whitespace (vacuously true for the empty string). -/
def isTrimmed (s : String) : Bool :=
  (s.data.head?.all fun c => !jsWhitespace c) &&
    (s.data.getLast?.all fun c => !jsWhitespace c)

/-- Embedding of JavaScript s.slice(-4): the last four characters (the whole
string when it is shorter). -/
def jsSliceLast4 (s : String) : String :=
  ⟨s.data.drop (s.data.length - 4)⟩

/-- Embedding of the JavaScript expression x || d for a possibly
null/undefined string x: the default d replaces null, undefined and the
empty string (all falsy). -/
def jsOrElse (x : Option String) (d : String) : String :=
  match x with
  | some v => if v = "" then d else v
  | none => d

/-- Truthiness of a possibly null/undefined JavaScript string: null,
undefined and the empty string are falsy. -/
def jsTruthy (x : Option String) : Bool :=
  match x with
  | some v => !(v = "")
  | none => false

/-! ## Data model of src-ui/src/hooks/useTauri.ts

The DeviceInfo interface declares connected and error_message only; the
device_count property is additionally modelled as an Option because the
DeviceStatus component both constructs values carrying a device_count and
reads deviceInfo.device_count, so at runtime the object may or may not
carry the property. -/

structure DeviceInfo where
  connected : Bool
  device_count : Option Int
  error_message : Option String
  deriving Repr, DecidableEq

inductive AdbSource where
  | local_copy (stored_path : String) (original_filename : String)
  | remote_server (url : String)
  deriving Repr, DecidableEq

structure SetupConfig where
  adb_source : Option AdbSource := none
  github_token : Option String := none
  deriving Repr, DecidableEq

/-! ## src-ui/src/hooks/useDeviceConnectionStatus.ts -/

/-- The hook state of useDeviceConnectionStatus: deviceInfo starts
undefined, loading is the in-flight flag. -/
structure DeviceHookState where
  deviceInfo : Option DeviceInfo
  loading : Bool
  deriving Repr, DecidableEq

/-- The fallback DeviceInfo constructed in the catch branch of checkDevice
in useDeviceConnectionStatus.ts (lines 19-22): it carries no device_count
property. -/
def useDeviceFallbackInfo : DeviceInfo :=
  { connected := false
    device_count := none
    error_message := some "Failed to check device connection" }

/-- Embedding of checkDevice from useDeviceConnectionStatus.ts: the probe
outcome (the checkDeviceConnection promise resolving with a DeviceInfo or
rejecting with an error) is mapped to the state the hook ends in.  The
result is wrapped in Except to record whether an exception escapes the
function: the try/catch/finally structure means it never does. -/
def checkDevice (probe : Except String DeviceInfo) : Except String DeviceHookState :=
  match probe with
  | .ok info => .ok { deviceInfo := some info, loading := false }
  | .error _ => .ok { deviceInfo := some useDeviceFallbackInfo, loading := false }

/-- The polling period of the useEffect in useDeviceConnectionStatus.ts:
setInterval(checkDevice, 5000). -/
def probeIntervalMs : Nat := 5000

/-- Discrete-time model of the probe schedule set up by the useEffect in
useDeviceConnectionStatus.ts: on subscription (time 0) checkDevice runs
immediately, and the interval fires it again every 5000 ms; the cleanup
clears the interval at teardown.  probeAt t T says a probe runs at time t
for a subscription torn down at time T. -/
def probeAt (t teardown : Nat) : Bool :=
  decide (t < teardown) && decide (t % probeIntervalMs = 0)

/-! ## src-ui/src/components/DeviceStatus.tsx (also src/unnamed/part_000) -/

/-- The fallback DeviceInfo constructed in the catch branch of checkDevice
in DeviceStatus.tsx: unlike the useDeviceConnectionStatus fallback it does
carry device_count: 0, even though the DeviceInfo interface in useTauri.ts
declares no such field. -/
def deviceStatusFallbackInfo : DeviceInfo :=
  { connected := false
    device_count := some 0
    error_message := some "Failed to check device connection" }

/-! ## src-ui/src/hooks/useSetupConfig.ts -/

/-- The hook state of useSetupConfig: config starts null, loading starts
true. -/
structure SetupHookState where
  config : Option SetupConfig
  loading : Bool
  deriving Repr, DecidableEq

/-- Embedding of refresh from useSetupConfig.ts: the state after the
awaited loadSetupConfig resolves with a configuration (the finally branch
clears loading). -/
def refresh (current : SetupConfig) : SetupHookState :=
  { config := some current, loading := false }

/-! ## The credential store (Rust backend of the Tauri commands) -/

/-- Modelled from the spec: the credential-store setters behind the Tauri
commands set_adb_key_from_file, set_adb_key_from_bytes, set_adb_key_remote,
clear_adb_key and set_github_token are declared in useTauri.ts but
implemented in the Rust backend, which is not among the sources.  Per spec
section 4.1 each key setter replaces the persisted key source with its own
variant (setKeyFromLocalFile and setKeyFromBytes store a LocalCopy of the
key material, setKeyRemote switches to RemoteServer, clearKey resets to
Unset) and setDownloadToken stores or clears the optional token. -/
inductive CredOp where
  | setKeyFromLocalFile (storedPath : String) (originalFilename : String)
  | setKeyFromBytes (filename : String) (storedPath : String)
  | setKeyRemote (url : String)
  | clearKey
  | setDownloadToken (token : Option String)
  deriving Repr, DecidableEq

/-- Modelled from the spec: the configuration committed by one successful
credential setter (spec section 4.1); a setter that fails with InvalidInput
commits nothing, so a failed call is the identity on the persisted
configuration and is covered by the empty sequence. -/
def applyCredOp (cfg : SetupConfig) : CredOp → SetupConfig
  | .setKeyFromLocalFile p f => { cfg with adb_source := some (.local_copy p f) }
  | .setKeyFromBytes f p => { cfg with adb_source := some (.local_copy p f) }
  | .setKeyRemote u => { cfg with adb_source := some (.remote_server u) }
  | .clearKey => { cfg with adb_source := none }
  | .setDownloadToken t => { cfg with github_token := t }

/-- A sequence of successful credential setter calls, applied in order. -/
def applyCredOps (cfg : SetupConfig) (ops : List CredOp) : SetupConfig :=
  ops.foldl applyCredOp cfg

/-- Modelled from the spec: load() returns the current persisted
configuration and never fails; absence of any prior configuration yields
the default Unset key source and no token (spec section 4.1).  The Except
result records that no failure is ever produced. -/
def load_setup_config (persisted : Option SetupConfig) : Except String SetupConfig :=
  .ok (persisted.getD {})

/-- load() as observed after a sequence of setters: the persisted
configuration itself (setters are atomic with respect to load). -/
def load (cfg : SetupConfig) : SetupConfig := cfg

/-- The configuration currently shows the LocalCopy key-source variant. -/
def isLocalCopy (cfg : SetupConfig) : Bool :=
  match cfg.adb_source with
  | some (.local_copy _ _) => true
  | _ => false

/-- The configuration currently shows the RemoteServer key-source
variant. -/
def isRemoteServer (cfg : SetupConfig) : Bool :=
  match cfg.adb_source with
  | some (.remote_server _) => true
  | _ => false

/-! ## The installation engine (Rust backend) -/

inductive Operation where
  | install
  | uninstall
  | downloadOnly
  deriving Repr, DecidableEq

inductive JobState where
  | pending
  | resolving
  | downloading
  | installing
  | completed
  | cancelled
  | failed
  deriving Repr, DecidableEq

structure InstallationJob where
  jobId : Nat
  requestedRepos : List String
  operation : Operation
  state : JobState
  deriving Repr, DecidableEq

inductive StartJobError where
  | jobInProgress
  deriving Repr, DecidableEq

/-- The engine's job slot: at most one InstallationJob is active at a
time; a job in the slot is the Active one. -/
structure Engine where
  activeJob : Option InstallationJob
  deriving Repr, DecidableEq

/-- Modelled from the spec: starting an install/uninstall job on the
single-flight engine (spec section 5); the engine itself is in the Rust
backend, not among the sources.  While a job is active, starting another
fails fast with JobInProgress and the engine - in particular the active
job and its state - is returned unchanged; there is no queue.  The pair
returned is the engine after the call and the outcome. -/
def startJob (e : Engine) (j : InstallationJob) : Engine × Except StartJobError Nat :=
  match e.activeJob with
  | some _ => (e, .error .jobInProgress)
  | none => ({ activeJob := some j }, .ok j.jobId)

/-- Modelled from the spec: the repository set an installation job
operates on (spec sections 6 and 8): the requested set itself, or, for the
empty set, the full set returned by listAvailable() at job start; the
registry result observed later in the job plays no part. -/
def jobTargets (requested availableAtStart _availableLater : List String) : List String :=
  if requested.isEmpty then availableAtStart else requested

/-! ## src-ui/src/components/RepositorySelector.tsx -/

/-- Embedding of canInstall from RepositorySelector.tsx line 67. -/
def canInstall (deviceConnected installing : Bool) : Bool :=
  deviceConnected && !installing

/-- The repository list handleInstallAll (RepositorySelector.tsx lines
63-65) passes to onInstall - and thence SetupWizard.handleInstall to
installRepositories: the empty list, never an enumeration of the loaded
repositories. -/
def handleInstallAllArg : List String := []

/-- The repository list handleInstallSelected passes to onInstall: the
current selection. -/
def handleInstallSelectedArg (selectedRepos : List String) : List String :=
  selectedRepos

/-! ## src-ui/src/components/setup/SetupWizard.tsx -/

/-- Embedding of githubPreview from SetupWizard.tsx lines 35-45: null for
a null or empty token; the whole token after a bullet prefix when it has
at most four characters; otherwise the bullet prefix and the last four
characters. -/
def githubPreview (token : Option String) : Option String :=
  match token with
  | none => none
  | some t =>
    if t = "" then none
    else if t.length ≤ 4 then some ("•••" ++ t)
    else some ("•••" ++ jsSliceLast4 t)

/-- What one call of persistGithubToken (SetupWizard.tsx lines 568-600)
returns and does: the boolean it resolves with, whether it invoked the
setGithubToken backend command, and the token argument it sent if so. -/
structure PersistGithubResult where
  returned : Bool
  backendCalled : Bool
  tokenSent : Option (Option String)
  deriving Repr, DecidableEq

/-- The normalization persistGithubToken applies to the token input: trim,
then identify the empty result with null. -/
def normalizeToken (input : String) : Option String :=
  if (jsTrim input).length > 0 then some (jsTrim input) else none

/-- Embedding of persistGithubToken from SetupWizard.tsx lines 568-600.
savingGithub is the re-entrancy flag read at entry, githubTokenInput the
token field, storedToken the github_token of the loaded config (null
coalesced), backendSucceeds whether the awaited setGithubToken call would
resolve. -/
def persistGithubToken (savingGithub : Bool) (githubTokenInput : String)
    (storedToken : Option String) (backendSucceeds : Bool) : PersistGithubResult :=
  if savingGithub then
    { returned := false, backendCalled := false, tokenSent := none }
  else if normalizeToken githubTokenInput = storedToken then
    { returned := true, backendCalled := false, tokenSent := none }
  else
    { returned := backendSucceeds, backendCalled := true
      tokenSent := some (normalizeToken githubTokenInput) }

/-- Embedding of the filenameCandidate expression of persistAdbChoice
(SetupWizard.tsx lines 472-475), reached when the picked file has no
filesystem path: (file.name truthy and nonblank after trim ? file.name :
pendingFile.path) || the fallback. -/
def filenameCandidate (name : String) (path : Option String) : String :=
  if jsTruthy (some name) && decide ((jsTrim name).length > 0) then name
  else jsOrElse path "adb_key"

/-- Embedding of the normalizedFilename expression of persistAdbChoice
(SetupWizard.tsx lines 476-479): the trimmed candidate, or the fallback
when trimming leaves nothing.  This is the filename argument passed to
setAdbKeyFromBytes. -/
def normalizedFilename (name : String) (path : Option String) : String :=
  if (jsTrim (filenameCandidate name path)).length > 0 then
    jsTrim (filenameCandidate name path)
  else "adb_key"

/-! ## Helper lemmas -/

/-- The head of a dropWhile result never satisfies the dropped
predicate. -/
theorem head?_dropWhile_all (p : Char → Bool) (l : List Char) :
    ((l.dropWhile p).head?.all fun c => !p c) = true := by
  induction l with
  | nil => rfl
  | cons a t ih =>
    cases h : p a with
    | true => simpa [List.dropWhile_cons, h] using ih
    | false => simp [List.dropWhile_cons, h]

/-- The last element of an rdropWhile result never satisfies the dropped
predicate. -/
theorem getLast?_rdropWhile_all (p : Char → Bool) (l : List Char) :
    ((List.rdropWhile p l).getLast?.all fun c => !p c) = true := by
  rw [List.rdropWhile, List.getLast?_reverse]
  exact head?_dropWhile_all p l.reverse

/-- Trimming always produces a trimmed string. -/
theorem isTrimmed_jsTrim (s : String) : isTrimmed (jsTrim s) = true := by
  have hdata : (jsTrim s).data
      = List.rdropWhile jsWhitespace (s.data.dropWhile jsWhitespace) := rfl
  unfold isTrimmed
  rw [hdata, Bool.and_eq_true]
  constructor
  · obtain ⟨t, ht⟩ :=
      List.rdropWhile_prefix jsWhitespace (s.data.dropWhile jsWhitespace)
    rcases hr : List.rdropWhile jsWhitespace (s.data.dropWhile jsWhitespace) with
      _ | ⟨a, r⟩
    · rfl
    · rw [hr] at ht
      have hhead := head?_dropWhile_all jsWhitespace s.data
      rw [← ht] at hhead
      simpa using hhead
  · exact getLast?_rdropWhile_all jsWhitespace _

/-- A configuration never shows the LocalCopy and the RemoteServer
variants at once: adb_source holds at most one AdbSource. -/
theorem variants_mutually_exclusive (cfg : SetupConfig) :
    (isLocalCopy cfg && isRemoteServer cfg) = false := by
  cases h : cfg.adb_source with
  | none => simp [isLocalCopy, isRemoteServer, h]
  | some src => cases src <;> simp [isLocalCopy, isRemoteServer, h]

/-! ## The claims -/

/-- Claim C1: for every sequence of credential setter calls, the
configuration observed by a subsequent load() contains at most one active
keySource variant; after setKeyFromLocalFile or setKeyFromBytes it is
LocalCopy(storedPath, originalFilename), after setKeyRemote(url) it is
RemoteServer(url), and no reachable configuration shows both variants
simultaneously. -/
theorem keySource_at_most_one_variant :
    (∀ (cfg : SetupConfig) (ops : List CredOp),
      (isLocalCopy (load (applyCredOps cfg ops)) &&
        isRemoteServer (load (applyCredOps cfg ops))) = false) ∧
    (∀ (cfg : SetupConfig) (storedPath originalFilename : String),
      (load (applyCredOp cfg (.setKeyFromLocalFile storedPath originalFilename))).adb_source
        = some (.local_copy storedPath originalFilename)) ∧
    (∀ (cfg : SetupConfig) (filename storedPath : String),
      (load (applyCredOp cfg (.setKeyFromBytes filename storedPath))).adb_source
        = some (.local_copy storedPath filename)) ∧
    (∀ (cfg : SetupConfig) (url : String),
      (load (applyCredOp cfg (.setKeyRemote url))).adb_source
        = some (.remote_server url)) :=
  ⟨fun cfg ops => variants_mutually_exclusive (load (applyCredOps cfg ops)),
   fun _ _ _ => rfl, fun _ _ _ => rfl, fun _ _ => rfl⟩

/-- Claim C2: while an installation job is active, starting a second
install/uninstall job fails immediately with JobInProgress and returns
the engine - hence the active job and its state - unchanged, queuing
nothing; the UI likewise keeps canInstall false for the whole time
installing is set. -/
theorem startJob_single_flight :
    (∀ (active j : InstallationJob),
      startJob { activeJob := some active } j
        = ({ activeJob := some active }, .error .jobInProgress)) ∧
    (∀ deviceConnected : Bool, canInstall deviceConnected true = false) := by
  refine ⟨fun active j => rfl, fun deviceConnected => ?_⟩
  cases deviceConnected <;> rfl

/-- Claim C3 (code bug): the probe result delivered to the caller does
not always carry a deviceCount - the DeviceInfo interface of useTauri.ts
declares no device_count field, and the fallback value
useDeviceConnectionStatus.checkDevice delivers on a rejected probe indeed
has none - while the sibling DeviceStatus component constructs its
fallback with device_count = 0 and reads deviceInfo.device_count, so the
interface (not the claim) is the slip. -/
theorem deviceCount_missing_from_delivered_probe :
    useDeviceFallbackInfo.device_count = none ∧
    deviceStatusFallbackInfo.device_count = some 0 ∧
    checkDevice (.error "adb unavailable")
      = .ok { deviceInfo := some useDeviceFallbackInfo, loading := false } :=
  ⟨rfl, rfl, rfl⟩

/-- Claim C4: a device probe is never fatal: checkDevice completes
normally on every probe outcome, and a rejected probe is surfaced purely
as state - a deviceInfo with connected = false and an error message -
with no exception propagating to the caller. -/
theorem checkDevice_never_fatal :
    (∀ probe : Except String DeviceInfo, (checkDevice probe).isOk = true) ∧
    (∀ e : String,
      checkDevice (.error e)
        = .ok { deviceInfo := some useDeviceFallbackInfo, loading := false }) ∧
    useDeviceFallbackInfo.connected = false ∧
    useDeviceFallbackInfo.error_message = some "Failed to check device connection" := by
  refine ⟨fun probe => ?_, fun e => rfl, rfl, rfl⟩
  cases probe <;> rfl

/-- Claim C5: the Install All action passes the empty list to
installRepositories rather than enumerating the loaded repositories, and
a job requested with the empty set operates on exactly the repository set
returned by listAvailable() at job start, whatever the registry returns
later in the job. -/
theorem installAll_empty_means_full_snapshot :
    handleInstallAllArg = [] ∧
    (∀ availableAtStart availableLater : List String,
      jobTargets handleInstallAllArg availableAtStart availableLater
        = availableAtStart) ∧
    (∀ selected : List String, handleInstallSelectedArg selected = selected) :=
  ⟨rfl, fun _ _ => rfl, fun _ => rfl⟩

/-- Claim C6: load() never fails - every persisted state, including the
absence of any prior configuration, yields a configuration - and absence
yields the default Unset key source and no download token; the
useSetupConfig refresh stores exactly the loaded configuration. -/
theorem load_setup_config_never_fails :
    (∀ persisted : Option SetupConfig, (load_setup_config persisted).isOk = true) ∧
    load_setup_config none = .ok { adb_source := none, github_token := none } ∧
    (∀ cfg : SetupConfig, load_setup_config (some cfg) = .ok cfg) ∧
    (∀ cfg : SetupConfig, refresh cfg = { config := some cfg, loading := false }) := by
  refine ⟨fun persisted => ?_, rfl, fun _ => rfl, fun _ => rfl⟩
  cases persisted <;> rfl

/-- Claim C7: device connectivity probing follows its own loosely
periodic schedule, external to any job: one probe immediately at
subscription time 0, one at every further multiple of the 5000 ms
interval while the subscription lives, none after teardown, and probes
only on that grid; the schedule is a function of time and teardown alone,
the hook reading no job state. -/
theorem probe_timer_schedule (teardown : Nat) (h0 : 0 < teardown) :
    probeAt 0 teardown = true ∧
    (∀ k : Nat, (k + 1) * probeIntervalMs < teardown →
      probeAt ((k + 1) * probeIntervalMs) teardown = true) ∧
    (∀ t : Nat, teardown ≤ t → probeAt t teardown = false) ∧
    (∀ t : Nat, probeAt t teardown = true → t % probeIntervalMs = 0) := by
  refine ⟨?_, fun k hk => ?_, fun t ht => ?_, fun t ht => ?_⟩
  · simp [probeAt, h0]
  · simp [probeAt, hk, Nat.mul_mod_left]
  · simp [probeAt, Nat.not_lt.mpr ht]
  · simp only [probeAt, Bool.and_eq_true, decide_eq_true_eq] at ht
    exact ht.2

/-- Witness for claim C7 at a subscription torn down at 12000 ms. -/
theorem probe_timer_schedule_witness :
    probeAt 0 12000 = true ∧
    probeAt ((1 + 1) * probeIntervalMs) 12000 = true ∧
    probeAt 12000 12000 = false :=
  ⟨(probe_timer_schedule 12000 (by decide)).1,
   (probe_timer_schedule 12000 (by decide)).2.1 1 (by decide),
   (probe_timer_schedule 12000 (by decide)).2.2.1 12000 (by decide)⟩

/-- Claim C8: the stored-token preview depends only on whether the token
exceeds four characters and on its last four characters: two tokens
longer than four that agree on their last four characters yield the
identical preview; the preview is null exactly for a null or empty token;
a token of at most four characters is shown whole after the bullet
prefix. -/
theorem githubPreview_spec :
    (∀ t1 t2 : String, 4 < t1.length → 4 < t2.length →
      jsSliceLast4 t1 = jsSliceLast4 t2 →
      githubPreview (some t1) = githubPreview (some t2)) ∧
    (∀ token : Option String,
      (githubPreview token = none ↔ token = none ∨ token = some "")) ∧
    (∀ t : String, t ≠ "" → t.length ≤ 4 →
      githubPreview (some t) = some ("•••" ++ t)) := by
  refine ⟨fun t1 t2 h1 h2 hs => ?_, fun token => ?_, fun t ht h4 => ?_⟩
  · have e1 : t1 ≠ "" := by
      intro e
      subst e
      exact absurd h1 (by decide)
    have e2 : t2 ≠ "" := by
      intro e
      subst e
      exact absurd h2 (by decide)
    simp only [githubPreview]
    rw [if_neg e1, if_neg e2, if_neg (by omega : ¬t1.length ≤ 4),
      if_neg (by omega : ¬t2.length ≤ 4), hs]
  · cases token with
    | none => simp [githubPreview]
    | some t =>
      by_cases ht : t = ""
      · subst ht
        simp [githubPreview]
      · simp only [githubPreview]
        rw [if_neg ht]
        split_ifs with h4 <;> simp [ht]
  · simp only [githubPreview]
    rw [if_neg ht, if_pos h4]

/-- Witness for claim C8: two eight- and seven-character tokens ending in
efgh get the same preview, the empty token previews as null, and a
two-character token is shown whole. -/
theorem githubPreview_spec_witness :
    githubPreview (some "abcdefgh") = githubPreview (some "xyzefgh") ∧
    (githubPreview (some "") = none ↔
      (some "" : Option String) = none ∨ (some "" : Option String) = some "") ∧
    githubPreview (some "ab") = some ("•••" ++ "ab") :=
  ⟨githubPreview_spec.1 "abcdefgh" "xyzefgh" (by decide) (by decide) (by decide),
   githubPreview_spec.2.1 (some ""),
   githubPreview_spec.2.2 "ab" (by decide) (by decide)⟩

/-- Claim C9 counterexample: a call made while a save is already in
flight (savingGithub true) returns false even though the normalized input
equals the stored token, so the claim's unconditional "returns true" is
false on the code; the backend is still not invoked. -/
theorem persistGithubToken_reentrant_returns_false :
    normalizeToken "tok" = some "tok" ∧
    (persistGithubToken true "tok" (some "tok") true).returned = false ∧
    (persistGithubToken true "tok" (some "tok") true).backendCalled = false :=
  ⟨by decide, rfl, rfl⟩

/-- Claim C9 (amended): provided no token save is already in flight
(savingGithub false), a save whose trimmed input equals the stored token
- empty or whitespace-only input identified with null - returns true
without invoking the setGithubToken backend command, so persisted state
is unchanged; a call made while a save is in flight returns false,
likewise without invoking the backend. -/
theorem persistGithubToken_noop_when_unchanged (input : String)
    (stored : Option String) (backendSucceeds : Bool)
    (h : normalizeToken input = stored) :
    persistGithubToken false input stored backendSucceeds
      = { returned := true, backendCalled := false, tokenSent := none } ∧
    (∀ b : Bool, (persistGithubToken true input stored b).backendCalled = false) := by
  refine ⟨?_, fun b => rfl⟩
  have hred : persistGithubToken false input stored backendSucceeds
      = if normalizeToken input = stored then
          { returned := true, backendCalled := false, tokenSent := none }
        else
          { returned := backendSucceeds, backendCalled := true
            tokenSent := some (normalizeToken input) } := rfl
  rw [hred, if_pos h]

/-- Witness for claim C9: an input that trims to the stored token, and a
whitespace-only input against no stored token, both save as no-ops. -/
theorem persistGithubToken_noop_witness :
    persistGithubToken false " tok " (some "tok") true
      = { returned := true, backendCalled := false, tokenSent := none } ∧
    persistGithubToken false "   " none false
      = { returned := true, backendCalled := false, tokenSent := none } :=
  ⟨(persistGithubToken_noop_when_unchanged " tok " (some "tok") true (by decide)).1,
   (persistGithubToken_noop_when_unchanged "   " none false (by decide)).1⟩

/-- Claim C10: for every picked key file lacking a filesystem path
(pendingFile.path falsy), the filename passed to setAdbKeyFromBytes is a
non-empty trimmed string, and a blank or whitespace-only file name is
replaced by the fallback adb_key before the call. -/
theorem setAdbKeyFromBytes_filename_safe (name : String) (path : Option String)
    (hpath : jsTruthy path = false) :
    0 < (normalizedFilename name path).length ∧
    isTrimmed (normalizedFilename name path) = true ∧
    ((jsTrim name).length = 0 → normalizedFilename name path = "adb_key") := by
  refine ⟨?_, ?_, fun hname => ?_⟩
  · unfold normalizedFilename
    split_ifs with h
    · exact h
    · decide
  · unfold normalizedFilename
    split_ifs with h
    · exact isTrimmed_jsTrim _
    · decide
  · have hcond : (jsTruthy (some name) && decide ((jsTrim name).length > 0)) = false := by
      simp [hname]
    have hcand : filenameCandidate name path = "adb_key" := by
      unfold filenameCandidate
      rw [hcond]
      cases path with
      | none => simp [jsOrElse]
      | some v =>
        have hv : v = "" := by
          by_contra hne
          simp [jsTruthy, hne] at hpath
        subst hv
        simp [jsOrElse]
    unfold normalizedFilename
    rw [hcand]
    decide

/-- Witness for claim C10: a whitespace-only name with no path falls back
to adb_key, and a padded name yields a non-empty trimmed filename. -/
theorem setAdbKeyFromBytes_filename_safe_witness :
    normalizedFilename "   " none = "adb_key" ∧
    0 < (normalizedFilename " my key.pem " (some "")).length ∧
    isTrimmed (normalizedFilename " my key.pem " (some "")) = true :=
  ⟨(setAdbKeyFromBytes_filename_safe "   " none (by decide)).2.2 (by decide),
   (setAdbKeyFromBytes_filename_safe " my key.pem " (some "") (by decide)).1,
   (setAdbKeyFromBytes_filename_safe " my key.pem " (some "") (by decide)).2.1⟩

end Installer
